import Mathlib

/-!
Verification development for the a4e-mcp-server schema/metadata consistency
subsystem. The Python sources under `a4e/` are shallowly embedded: pure
functions become Lean functions, filesystem state becomes explicit record
passing, and fallible operations return `Except`/`Option`. Python strings are
modelled by `String`, Python dicts by ordered association lists
(`List (String × _)`, insertion order preserved as CPython does).
-/

/-! ## String utilities (models of Python `str` methods used by the source) -/

/-- Model of Python `needle in haystack` over lists of characters:
`true` iff `needle` occurs contiguously inside the haystack. -/
def containsSeq (needle : List Char) : List Char → Bool
  | [] => needle.isEmpty
  | c :: rest => needle.isPrefixOf (c :: rest) || containsSeq needle rest

/-- Model of Python `needle in hay` for strings (substring test). -/
def containsSub (hay needle : String) : Bool :=
  containsSeq needle.toList hay.toList

/-- Model of Python `str.lower()` (ASCII range, which is all the source uses). -/
def pyLower (s : String) : String :=
  String.mk (s.toList.map Char.toLower)

/-- Model of Python `str.strip()`: drop whitespace from both ends. -/
def pyStrip (s : String) : String :=
  String.mk (((s.toList.dropWhile Char.isWhitespace).reverse.dropWhile
    Char.isWhitespace).reverse)

/-- Drop trailing whitespace only (what `\s*$` consumes in a regex
substitution anchored at the end). -/
def pyStripRight (s : String) : String :=
  String.mk ((s.toList.reverse.dropWhile Char.isWhitespace).reverse)

/-- Model of Python `str.isalnum()` restricted to the ASCII identifiers the
tool names use: non-empty and every character alphanumeric. -/
def pyIsAlnum (s : String) : Bool :=
  !s.toList.isEmpty && s.toList.all Char.isAlphanum

/-- Model of Python `str.title()` on a single word: first character upper-cased,
the rest lower-cased. -/
def pyTitleWord (s : String) : String :=
  match s.toList with
  | [] => ""
  | c :: rest => String.mk (c.toUpper :: rest.map Char.toLower)

/-- Ordered-dict insertion, the semantics of `d[k] = v` on a CPython dict:
an existing key keeps its position and gets the new value, a new key is
appended. -/
def dictInsert {α : Type} (m : List (String × α)) (k : String) (v : α) :
    List (String × α) :=
  if m.any (fun p => p.1 == k) then
    m.map (fun p => if p.1 == k then (k, v) else p)
  else m ++ [(k, v)]

/-! ## JSON values

Persisted documents (`tools/schemas.json`, `views/schemas.json`, …) are JSON;
the embedding carries them as this inductive. Numbers are irrelevant to every
claim and are kept as integers. -/

inductive Json where
  | str (s : String)
  | num (n : Int)
  | jbool (b : Bool)
  | null
  | arr (xs : List Json)
  | obj (fields : List (String × Json))

/-- Python `==` between a JSON value and a `str`: only a JSON string can
compare equal. -/
def jsonEqStr (j : Json) (s : String) : Bool :=
  match j with
  | .str t => t == s
  | _ => false

/-- Keys of a JSON object (empty for every other shape). -/
def jsonKeys : Json → List String
  | .obj fields => fields.map Prod.fst
  | _ => []

/-- Whether a JSON object has the given key. -/
def jsonHasKey (j : Json) (k : String) : Bool :=
  (jsonKeys j).any (fun key => key == k)

/-! ## `a4e/utils/schema_generator.py`

`extract_description` (lines 29–33): first paragraph of the docstring. -/

/-- Characters up to (excluding) the first occurrence of `sep`; the whole list
when `sep` does not occur. Models `s.split(sep)[0]`. -/
def takeUntilSeq (sep : List Char) : List Char → List Char
  | [] => []
  | c :: rest =>
    if sep.isPrefixOf (c :: rest) then [] else c :: takeUntilSeq sep rest

def extract_description (docstring : String) : String :=
  if docstring == "" then ""
  else pyStrip (String.mk (takeUntilSeq "\n\n".toList (pyStrip docstring).toList))

/-- Lines 59–60 of `extract_param_descriptions`: the substitution
`re.sub(r'\s*\(optional\)\s*$', '', description)`. The pattern is
case-sensitive and anchored at the end, so it removes a trailing literal
`(optional)` together with the whitespace around it, and nothing else.
The call site always passes an already-stripped string. -/
def stripOptionalMarker (s : String) : String :=
  let t := (pyStripRight s).toList
  if "(optional)".toList.isSuffixOf t then
    String.mk (((t.take (t.length - 10)).reverse.dropWhile Char.isWhitespace).reverse)
  else s

/-- `extract_param_descriptions` (lines 36–70), applied to the two match lists
the regexes produce over the Args section: `bullets` are the
`- name: description` matches (line 56) and `plain` the indented
`name: description` matches (line 64). Bullet descriptions get the
`(optional)` suffix removed; a plain-style match never overrides a name the
bullet pass already recorded. -/
def extract_param_descriptions (bullets plain : List (String × String)) :
    List (String × String) :=
  let fromBullets := bullets.foldl
    (fun m p => dictInsert m (pyStrip p.1) (stripOptionalMarker (pyStrip p.2)))
    []
  plain.foldl
    (fun m p =>
      if m.any (fun q => q.1 == pyStrip p.1) then m
      else dictInsert m (pyStrip p.1) (pyStrip p.2))
    fromBullets

/-- One property of a generated JSON schema: a `{"type": …, "description": …}`
table entry (`description` is absent in the default returns stub). -/
structure PropSchema where
  type : String
  description : Option String
deriving DecidableEq

/-- The type-inference heuristic of `extract_return_properties`
(lines 91–99): note the `"count"` keyword and the absence of an
integer case. -/
def returnPropType (description : String) : String :=
  let d := pyLower description
  if containsSub d "number" || containsSub d "count" then "number"
  else if containsSub d "boolean" || containsSub d "true/false" then "boolean"
  else if containsSub d "array" || containsSub d "list" then "array"
  else if containsSub d "object" || containsSub d "dict" then "object"
  else "string"

/-- `extract_return_properties` (lines 73–103) applied to the Returns-section
match list: `none` when the `Returns:` regex finds no section (then the
result is empty), otherwise each `name: description` match becomes a typed
property via `returnPropType`. -/
def extract_return_properties
    (entries : Option (List (String × String))) : List (String × PropSchema) :=
  match entries with
  | none => []
  | some es =>
    es.foldl
      (fun m p =>
        let d := pyStrip p.2
        dictInsert m (pyStrip p.1) ⟨returnPropType d, some d⟩)
      []

/-- The type-inference heuristic of `generate_schema`'s bundled
(`params`-dict) branch (lines 181–191): `"integer"` beats `"number"`, then
boolean, array, object, else string. -/
def bundledParamType (description : String) : String :=
  let d := pyLower description
  if containsSub d "number" || containsSub d "integer" then
    (if containsSub d "integer" then "integer" else "number")
  else if containsSub d "boolean" || containsSub d "true/false" then "boolean"
  else if containsSub d "array" || containsSub d "list" then "array"
  else if containsSub d "object" || containsSub d "dict" then "object"
  else "string"

/-- Line 199 of `generate_schema`: a bundled parameter is required iff the
(already marker-stripped) stored description does not contain
`"(optional)"` case-insensitively. -/
def bundledParamRequired (storedDescription : String) : Bool :=
  !containsSub (pyLower storedDescription) "(optional)"

/-- The bundled branch of `generate_schema` (lines 178–200): from the stored
parameter descriptions build the properties table and the required list. -/
def bundledProperties (descs : List (String × String)) :
    List (String × PropSchema) × List String :=
  descs.foldl
    (fun acc p =>
      let props := dictInsert acc.1 p.1 ⟨bundledParamType p.2, some p.2⟩
      let req := if bundledParamRequired p.2 then acc.2 ++ [p.1] else acc.2
      (props, req))
    ([], [])

/-- Lines 232–238 of `generate_schema`: the returns table, defaulting to the
`{status, message}` stub when extraction produced nothing. -/
def returnsProperties (ret : List (String × PropSchema)) :
    List (String × PropSchema) :=
  if ret.isEmpty then
    [("status", ⟨"string", none⟩), ("message", ⟨"string", none⟩)]
  else ret

/-- A generated tool schema (the value `generate_schema` returns,
lines 222–239). -/
structure ToolSchema where
  name : String
  description : String
  properties : List (String × PropSchema)
  required : List String
  returns : List (String × PropSchema)
deriving DecidableEq

/-- `generate_schema` for a bundled-convention function (the branch taken when
the signature is exactly `params`): the docstring is given through the match
lists its regexes produce (`bullets`/`plain` for the Args section,
`returnEntries` for the Returns section, `none` when that section is
missing). -/
def generate_schema_bundled (funcName docText : String)
    (bullets plain : List (String × String))
    (returnEntries : Option (List (String × String))) : ToolSchema :=
  let descs := extract_param_descriptions bullets plain
  let pr := bundledProperties descs
  { name := funcName
    description := extract_description docText
    properties := pr.1
    required := pr.2
    returns := returnsProperties (extract_return_properties returnEntries) }

/-! ## The Type Mapper

`python_type_to_json_type` (schema_generator.py lines 106–141) works on live
Python type objects. `PyType` is the space of those objects as the source
inspects them (`get_origin`/`get_args`); `pynone` is `NoneType`,
`other` covers every annotation the function does not recognise
(including `typing.Any`). -/

inductive PyType where
  | pystr | pyint | pyfloat | pybool | pynone | pydict
  | pylist (args : List PyType)
  | pyunion (args : List PyType)
  | pyliteral (values : List String)
  | other (name : String)

/-- The identity test `arg is type(None)` of line 113. -/
def PyType.isNone : PyType → Bool
  | .pynone => true
  | _ => false

/-- The JSON type definitions `python_type_to_json_type` can return:
`{"type": t}`, `{"type": "array", "items": …}` or
`{"type": "string", "enum": […]}`. -/
inductive JsonTypeDef where
  | simple (t : String)
  | arrayOf (items : JsonTypeDef)
  | enumOf (values : List String)
deriving DecidableEq

/-- The `"type"` field of a `JsonTypeDef`. -/
def JsonTypeDef.typeName : JsonTypeDef → String
  | .simple t => t
  | .arrayOf _ => "array"
  | .enumOf _ => "string"

/-- `python_type_to_json_type` (lines 106–141): unwrap `Optional`/`Union` to
its first non-`None` argument, map the six native types, default to string.
An empty-args `list` annotation takes `Any` as its item type (line 128);
`python_type_to_json_type(Any)` is the string fallback, written inline in
that branch. -/
def python_type_to_json_type : PyType → JsonTypeDef
  | .pyunion args =>
    match h : args.filter (fun a => !a.isNone) with
    | [] => .simple "string"
    | a :: _ => python_type_to_json_type a
  | .pystr => .simple "string"
  | .pyint => .simple "integer"
  | .pyfloat => .simple "number"
  | .pybool => .simple "boolean"
  | .pylist [] => .arrayOf (.simple "string")
  | .pylist (a :: _) => .arrayOf (python_type_to_json_type a)
  | .pydict => .simple "object"
  | .pyliteral vs => .enumOf vs
  | .pynone => .simple "string"
  | .other _ => .simple "string"
decreasing_by
  · have hm : a ∈ args.filter (fun x => !x.isNone) := by
      rw [h]; exact List.mem_cons_self _ _
    have hlt : sizeOf a < sizeOf args :=
      List.sizeOf_lt_of_mem (List.mem_of_mem_filter hm)
    simp only [PyType.pyunion.sizeOf_spec]
    omega
  · simp only [PyType.pylist.sizeOf_spec, List.cons.sizeOf_spec]
    omega

/-! ## `add_tool` / `update_tool` parameter mapping

The block at add_tool.py lines 60–96, repeated verbatim at
update_tool.py lines 77–104: map each canonical JSON type to its native
annotation string, wrap optionals, then sort required parameters first. -/

/-- A value of the caller-supplied `parameters` dict: either the simple format
`{"a": "number"}` or the detailed `{"a": {"type": …, "description": …,
"required": …}}`; absent dict keys are `none`. -/
inductive ParamSpec where
  | simple (ty : String)
  | detailed (ty : Option String) (required : Option Bool)
      (description : Option String)
deriving DecidableEq

/-- `type_mapping` (add_tool.py lines 62–69 and update_tool.py
lines 78–85). -/
def type_mapping : List (String × String) :=
  [("string", "str"), ("number", "float"), ("integer", "int"),
   ("boolean", "bool"), ("array", "List"), ("object", "dict")]

/-- A parameter after the mapping loop: the rendered native type expression
and the `is_required` flag. -/
structure MappedParam where
  pyType : String
  is_required : Bool
deriving DecidableEq

/-- The body of the mapping loop (add_tool.py lines 71–91): take the raw type
(default `"Any"`), map it through `type_mapping` (pass through unmapped
types unchanged), read `required` with default `False`, and wrap
non-required parameters as `Optional[…] = None`. -/
def mapToolParam (info : ParamSpec) : MappedParam :=
  let rawType := match info with
    | .simple t => t
    | .detailed ty _ _ => ty.getD "Any"
  let pyType := ((type_mapping.lookup rawType).getD rawType)
  let isRequired := match info with
    | .simple _ => false
    | .detailed _ req _ => req.getD false
  { pyType := if isRequired then pyType else "Optional[" ++ pyType ++ "] = None"
    is_required := isRequired }

/-- The Python sort key `(not is_required, name)` flattened to a number for
the first component (`False < True` becomes `0 < 1`). -/
def paramSortKey (p : String × MappedParam) : Nat :=
  if p.2.is_required then 0 else 1

/-- The comparison `sorted` uses on `(key, name)` pairs
(lexicographic tuple order). -/
def paramLe (a b : String × MappedParam) : Bool :=
  decide (paramSortKey a < paramSortKey b ∨
    (paramSortKey a = paramSortKey b ∧ a.1 ≤ b.1))

/-- `sorted(mapped_params.items(), key=lambda x: (not x[1]["is_required"], x[0]))`
(add_tool.py lines 93–96): required parameters first, ties by name. -/
def sortToolParams (l : List (String × MappedParam)) :
    List (String × MappedParam) :=
  l.mergeSort paramLe

/-- The parameter list `add_tool` renders into the generated declaration
(mapping loop followed by the sort, lines 60–96). -/
def add_tool_rendered_params (params : List (String × ParamSpec)) :
    List (String × MappedParam) :=
  sortToolParams (params.map (fun p => (p.1, mapToolParam p.2)))

/-- The identical block in `update_tool` (update_tool.py lines 77–104). -/
def update_tool_rendered_params (params : List (String × ParamSpec)) :
    List (String × MappedParam) :=
  sortToolParams (params.map (fun p => (p.1, mapToolParam p.2)))

/-! ## `create_view` prop handling (views/helpers.py lines 53–71) -/

/-- A value of the `props` dict passed to view creation: simple
(`"title": "string"`) or detailed (with optional description and
required flag). -/
inductive ViewPropSpec where
  | simple (ty : String)
  | detailed (ty : Option String) (description : Option String)
      (required : Option Bool)
deriving DecidableEq

/-- One iteration of the prop loop of `create_view` (lines 57–68): a detailed
prop is required unless it carries `required: False`
(`prop_type.get("required", True)`); a simple prop is always required. -/
def createViewPropStep (acc : List (String × PropSchema) × List String)
    (p : String × ViewPropSpec) :
    List (String × PropSchema) × List String :=
  match p.2 with
  | .detailed ty desc req =>
    let entry : PropSchema :=
      ⟨ty.getD "string", some (desc.getD ("The " ++ p.1 ++ " prop"))⟩
    (dictInsert acc.1 p.1 entry,
     if req.getD true then acc.2 ++ [p.1] else acc.2)
  | .simple ty =>
    (dictInsert acc.1 p.1 ⟨ty, some ("The " ++ p.1 ++ " prop")⟩,
     acc.2 ++ [p.1])

/-- The prop loop of `create_view` (lines 56–68): build the schema properties
and the required list. -/
def createViewSchemaProps (props : List (String × ViewPropSpec)) :
    List (String × PropSchema) × List String :=
  props.foldl createViewPropStep ([], [])

/-! ## Result records

Every public operation returns a dict with a `success` flag and optional
`message` / `error` / `fix` strings. -/

structure OpResult where
  success : Bool
  message : Option String := none
  error : Option String := none
  fix : Option String := none
deriving DecidableEq

/-! ## The Schema Registry: `generate_schemas` (tools/schemas/generate_schemas.py)

Filesystem state relevant to schema generation. A tool source file is
represented by its stem and the outcome of importing it and running
`generate_schema` on its tool function (`Except.error` models the caught
per-file exception of lines 138–142). A view directory is represented by its
name and, when `view.tsx` exists, the outcome of reading and regex-scanning
it (properties and required list, lines 171–207). -/

structure ViewSource where
  name : String
  tsx : Option (Except String (List (String × PropSchema) × List String))

structure GenProject where
  toolsDirExists : Bool
  toolFiles : List (String × Except String ToolSchema)
  toolsSchemasJson : Option Json
  viewsDirExists : Bool
  viewDirs : List ViewSource
  viewsSchemasJson : Option Json

/-- One `{"type", "description"}` property as JSON. -/
def propSchemaJson (p : PropSchema) : Json :=
  .obj ([("type", .str p.type)] ++
    (match p.description with
     | some d => [("description", Json.str d)]
     | none => []))

/-- A generated tool schema as the JSON document `generate_schema` returns
(schema_generator.py lines 222–239). -/
def toolSchemaJson (s : ToolSchema) : Json :=
  .obj [("function", .obj
          [("name", .str s.name),
           ("description", .str s.description),
           ("parameters", .obj
             [("type", .str "object"),
              ("properties", .obj (s.properties.map
                (fun p => (p.1, propSchemaJson p.2)))),
              ("required", .arr (s.required.map Json.str))])]),
        ("returns", .obj
          [("type", .str "object"),
           ("properties", .obj (s.returns.map
             (fun p => (p.1, propSchemaJson p.2))))])]

/-- Per-kind entry of the result dict `generate_schemas` returns. -/
structure KindResult where
  count : Nat
  status : String
  errors : List String
deriving DecidableEq

structure GenResults where
  tools : KindResult
  views : KindResult
deriving DecidableEq

/-- `generate_schemas` (lines 18–255). With `force=False` a kind whose
aggregate file already exists is skipped. The tools phase collects one
schema per processable tool file and writes `json.dumps(tool_schemas)` —
the list itself — as `tools/schemas.json` (line 148). The views phase
writes the aggregated map keyed by view id. -/
def generate_schemas (force : Bool) (st : GenProject) :
    GenProject × GenResults :=
  let runTools := st.toolsDirExists && (force || !st.toolsSchemasJson.isSome)
  let runViews := st.viewsDirExists && (force || !st.viewsSchemasJson.isSome)
  let toolEntries := st.toolFiles.filter (fun f => f.1 != "__init__")
  let toolSchemas := toolEntries.filterMap (fun f => f.2.toOption)
  let toolErrors := toolEntries.filterMap (fun f =>
    match f.2 with
    | .error e => some ("Error processing " ++ f.1 ++ ".py: " ++ e)
    | .ok _ => none)
  let toolsState : Option Json × KindResult :=
    if runTools then
      (some (Json.arr (toolSchemas.map toolSchemaJson)),
       ⟨toolSchemas.length,
        if toolErrors.isEmpty then "success" else "error", toolErrors⟩)
    else (st.toolsSchemasJson, ⟨0, "skipped", []⟩)
  let processedViews := st.viewDirs.filterMap (fun v =>
    v.tsx.map (fun r => (v.name, r)))
  let viewErrors := processedViews.filterMap (fun v =>
    match v.2 with
    | .error e => some ("Error processing view " ++ v.1 ++ ": " ++ e)
    | .ok _ => none)
  let aggViews := processedViews.foldl
    (fun m v =>
      match v.2 with
      | .ok pr => dictInsert m v.1 (Json.obj
          [("id", .str v.1),
           ("description", .str ("View for " ++ v.1)),
           ("params", .obj (pr.1.map (fun q => (q.1, propSchemaJson q.2))))])
      | .error _ => m)
    []
  let viewsState : Option Json × KindResult :=
    if runViews then
      (some (Json.obj aggViews),
       ⟨(processedViews.filter (fun v => v.2.toOption.isSome)).length,
        if viewErrors.isEmpty then "success" else "error", viewErrors⟩)
    else (st.viewsSchemasJson, ⟨0, "skipped", []⟩)
  ({ st with
      toolsSchemasJson := toolsState.1
      viewsSchemasJson := viewsState.1 },
   ⟨toolsState.2, viewsState.2⟩)

/-! ## `add_tool` (tools/agent_tools/add_tool.py lines 14–114)

The template rendering and the later import of the generated file are
abstracted into `rendered`: the schema the new file will yield when
`generate_schemas` processes it (or the processing error). -/

def add_tool (st : GenProject) (toolName : String)
    (rendered : Except String ToolSchema) : GenProject × OpResult :=
  if !pyIsAlnum (String.mk (toolName.toList.filter (fun c => c != '_'))) then
    (st, { success := false,
           error := some "Tool name must be alphanumeric with underscores",
           fix := some "Try a snake_case name" })
  else if !st.toolsDirExists then
    (st, { success := false,
           error := some "tools/ directory not found",
           fix := some "Initialize an agent first with initialize_project() or specify agent_name" })
  else if st.toolFiles.any (fun f => f.1 == toolName) then
    (st, { success := false,
           error := some ("Tool '" ++ toolName ++ "' already exists"),
           fix := some "Use update_tool() to modify or remove_tool() first" })
  else
    let st' := { st with toolFiles := st.toolFiles ++ [(toolName, rendered)] }
    let regen := generate_schemas false st'
    (regen.1, { success := true,
                message := some ("Created tool '" ++ toolName ++ "'") })

/-! ## `_validate_tools_schema_format` (tools/validation/validate.py
lines 222–261) -/

/-- Python `"function" in tool_schema` for an arbitrary JSON entry value:
key lookup for a dict, element equality for a list, substring for a
string; other values raise `TypeError` (caught by the enclosing handler). -/
def pyHasFunctionMember : Json → Except String Bool
  | .obj fields => .ok (fields.any (fun f => f.1 == "function"))
  | .arr xs => .ok (xs.any (fun x => jsonEqStr x "function"))
  | .str s => .ok (containsSub s "function")
  | _ => .error "argument of type is not iterable"

/-- The per-entry loop of lines 250–255; an exception ends the loop and
appends the generic error of line 259. -/
def checkToolSchemaEntries : List (String × Json) → List String
  | [] => []
  | (k, v) :: rest =>
    match pyHasFunctionMember v with
    | .error e => ["Error reading tools/schemas.json: " ++ e]
    | .ok true => checkToolSchemaEntries rest
    | .ok false =>
      ("Tool '" ++ k ++ "' schema missing 'function' key. " ++
        "Expected format: \x7b\"function\": \x7b...\x7d, \"returns\": \x7b...\x7d\x7d") ::
        checkToolSchemaEntries rest

/-- `_validate_tools_schema_format`: the parsed `tools/schemas.json`
(`Except.error` models a `json.JSONDecodeError`). A list is rejected
outright; a dict is checked entry by entry; any other JSON value passes. -/
def validate_tools_schema_format (parsed : Except String Json) : List String :=
  match parsed with
  | .error e => ["Invalid JSON in tools/schemas.json: " ++ e]
  | .ok (.arr _) =>
    ["tools/schemas.json is in array format but A4E expects dictionary format. " ++
      "Run 'generate_schemas(force=True)' to regenerate in correct format."]
  | .ok (.obj fields) => checkToolSchemaEntries fields
  | .ok _ => []

/-! ## `remove_view` (tools/views/remove_view.py lines 14–73)

State of the `views/` tree: whether the directory exists, the view folder
names on disk, and `views/schemas.json` (`none` = absent, `Except.error` =
unparsable). -/

structure ViewsFsState where
  viewsDirExists : Bool
  folders : List String
  schemasJson : Option (Except String Json)
deriving Inhabited

/-- The `schemas.json` update of lines 56–65 after the folder is deleted:
parse errors are swallowed (file left as is); a parsed dict loses the key if
present. A parsed non-dict raises on `del` (`TypeError`), which the narrow
`except` does not catch — that case is returned as a raised error. -/
def removeKeyFromViewsSchemas (doc : Except String Json) (viewId : String) :
    Except String Json × Option String :=
  match doc with
  | .error e => (.error e, none)
  | .ok (.obj fields) =>
    if fields.any (fun f => f.1 == viewId) then
      (.ok (.obj (fields.filter (fun f => f.1 != viewId))), none)
    else (.ok (.obj fields), none)
  | .ok (.arr xs) =>
    if xs.any (fun x => jsonEqStr x viewId) then
      (.ok (.arr xs), some "TypeError: list indices must be integers")
    else (.ok (.arr xs), none)
  | .ok (.str s) =>
    if containsSub s viewId then
      (.ok (.str s), some "TypeError: string indices must be integers")
    else (.ok (.str s), none)
  | .ok j => (.ok j, some "TypeError: argument of type is not iterable")

def remove_view (st : ViewsFsState) (viewId : String) :
    ViewsFsState × OpResult :=
  if !st.viewsDirExists then
    (st, { success := false,
           error := some "views/ directory not found. Are you in an agent project?" })
  else if !st.folders.contains viewId then
    (st, { success := false,
           error := some ("View '" ++ viewId ++ "' not found") })
  else if viewId == "welcome" then
    (st, { success := false,
           error := some "Cannot remove the 'welcome' view - it is required for all agents" })
  else
    let folders' := st.folders.filter (fun f => f != viewId)
    match st.schemasJson with
    | none =>
      ({ st with folders := folders' },
       { success := true, message := some ("Removed view '" ++ viewId ++ "'") })
    | some doc =>
      let upd := removeKeyFromViewsSchemas doc viewId
      match upd.2 with
      | some e =>
        ({ st with folders := folders', schemasJson := some upd.1 },
         { success := false, error := some e })
      | none =>
        ({ st with folders := folders', schemasJson := some upd.1 },
         { success := true, message := some ("Removed view '" ++ viewId ++ "'") })

/-! ## `remove_skill` (tools/skills/remove_skill.py lines 14–73), the
structurally identical operation over `skills/`. -/

structure SkillsFsState where
  skillsDirExists : Bool
  folders : List String
  schemasJson : Option (Except String Json)
deriving Inhabited

def remove_skill (st : SkillsFsState) (skillId : String) :
    SkillsFsState × OpResult :=
  if !st.skillsDirExists then
    (st, { success := false,
           error := some "skills/ directory not found. Are you in an agent project?" })
  else if !st.folders.contains skillId then
    (st, { success := false,
           error := some ("Skill '" ++ skillId ++ "' not found") })
  else if skillId == "show_welcome" then
    (st, { success := false,
           error := some "Cannot remove the 'show_welcome' skill - it is required for all agents" })
  else
    let folders' := st.folders.filter (fun f => f != skillId)
    match st.schemasJson with
    | none =>
      ({ st with folders := folders' },
       { success := true, message := some ("Removed skill '" ++ skillId ++ "'") })
    | some doc =>
      let upd := removeKeyFromViewsSchemas doc skillId
      match upd.2 with
      | some e =>
        ({ st with folders := folders', schemasJson := some upd.1 },
         { success := false, error := some e })
      | none =>
        ({ st with folders := folders', schemasJson := some upd.1 },
         { success := true, message := some ("Removed skill '" ++ skillId ++ "'") })

/-! ## Skills lifecycle (tools/skills/helpers.py, update_skill.py)

A parsed entry of `skills/schemas.json` as `update_skill` reads it: every
field accessed through `dict.get` with a default, so each is optional. The
`output` field is itself a dict whose `view` key may be missing
(`Option (Option String)`). -/

structure SkillEntryJson where
  name : Option String
  description : Option String
  intent_triggers : Option (List String)
  output : Option (Option String)
  internal_tools : Option (List String)
  requires_auth : Option Bool
deriving DecidableEq

/-- State the skills operations act on: the `skills/` directory, its skill
folders (content abstracted — a folder is gone after `rmtree`), the
aggregate document, and the existing `views/` folders that
`update_skill` checks its `output_view` against. -/
structure SkillsProject where
  skillsDirExists : Bool
  skillFolders : List String
  skillsSchemasJson : Option (Except String (List (String × SkillEntryJson)))
  viewFolders : List String
deriving Inhabited

/-- Split a character list on a separator character (Python `str.split(sep)`
semantics: `n` separators produce `n+1` pieces). -/
def splitListOn (sep : Char) : List Char → List (List Char)
  | [] => [[]]
  | c :: rest =>
    let r := splitListOn sep rest
    if c == sep then [] :: r
    else
      match r with
      | h :: t => (c :: h) :: t
      | [] => [[c]]

/-- `" ".join(word.title() for word in skill_id.split("_"))`
(helpers.py line 59). -/
def titleFromSnake (s : String) : String :=
  String.intercalate " " ((splitListOn '_' s.toList).map
    (fun w => pyTitleWord (String.mk w)))

/-- `_update_skills_schema` (helpers.py lines 95–137): load the aggregate
(starting from an empty dict when the file is missing or unparsable),
assign the new entry under the skill id, write back. -/
def update_skills_schema
    (doc : Option (Except String (List (String × SkillEntryJson))))
    (skillId : String) (entry : SkillEntryJson) :
    List (String × SkillEntryJson) :=
  let schemas := match doc with
    | some (.ok l) => l
    | _ => []
  dictInsert schemas skillId entry

/-- `create_skill` (helpers.py lines 11–92). Filesystem work inside the
`try` block (mkdir, template render, SKILL.md write) is abstracted into
`fsOk`: when false the caught exception path of line 91 is taken with no
state change. -/
def create_skill (st : SkillsProject) (skillId name description : String)
    (intentTriggers : List String) (outputView : String)
    (internalTools : List String) (requiresAuth : Bool) (fsOk : Bool) :
    SkillsProject × OpResult :=
  if !st.skillsDirExists then
    (st, { success := false, error := some "skills/ directory not found" })
  else if st.skillFolders.contains skillId then
    (st, { success := false,
           error := some ("Skill '" ++ skillId ++ "' already exists") })
  else if !fsOk then
    (st, { success := false, error := some "filesystem error during skill creation" })
  else
    let skillName := if name == "" then titleFromSnake skillId else name
    let entry : SkillEntryJson :=
      { name := some skillName
        description := some description
        intent_triggers := some intentTriggers
        output := some (some outputView)
        internal_tools := some internalTools
        requires_auth := some requiresAuth }
    ({ st with
        skillFolders := st.skillFolders ++ [skillId]
        skillsSchemasJson :=
          some (.ok (update_skills_schema st.skillsSchemasJson skillId entry)) },
     { success := true, message := some ("Created skill '" ++ skillId ++ "'") })

/-- `update_skill` (update_skill.py lines 13–148): after the guards it
deletes the old skill directory, removes the old aggregate entry and
rewrites the file, and only then calls `create_skill` with the merged
fields. The per-view `view.schema.json` read feeds only the abstracted
template (and a warning), so it is not modelled. -/
def update_skill (st : SkillsProject) (skillId : String)
    (name description : Option String) (intentTriggers : Option (List String))
    (outputView : Option String) (internalTools : Option (List String))
    (requiresAuth : Option Bool) (fsOk : Bool) : SkillsProject × OpResult :=
  if !st.skillsDirExists then
    (st, { success := false, error := some "skills/ directory not found",
           fix := some "Make sure you're in an agent project directory or specify agent_name" })
  else
    match st.skillsSchemasJson with
    | none =>
      (st, { success := false, error := some "skills/schemas.json not found",
             fix := some "Create a skill first with add_skill()" })
    | some (.error _) =>
      (st, { success := false, error := some "Failed to parse skills/schemas.json",
             fix := some "Check the file for JSON syntax errors" })
    | some (.ok schemas) =>
      if !schemas.any (fun q => q.1 == skillId) then
        (st, { success := false,
               error := some ("Skill '" ++ skillId ++ "' not found"),
               fix := some "Available skills are listed in skills/schemas.json" })
      else if name.isNone && description.isNone && intentTriggers.isNone &&
          outputView.isNone && internalTools.isNone && requiresAuth.isNone then
        (st, { success := false, error := some "Nothing to update",
               fix := some "Provide at least one of: name, description, intent_triggers, output_view, internal_tools, requires_auth" })
      else
        let current := (schemas.lookup skillId).getD
          ⟨none, none, none, none, none, none⟩
        let finalName := name.getD (current.name.getD skillId)
        let finalDescription := description.getD (current.description.getD "")
        let finalTriggers := intentTriggers.getD (current.intent_triggers.getD [])
        let finalView := outputView.getD ((current.output.getD none).getD "NONE")
        let finalTools := internalTools.getD (current.internal_tools.getD [])
        let finalAuth := requiresAuth.getD (current.requires_auth.getD false)
        if finalView != "" && finalView != "NONE" &&
            !st.viewFolders.contains finalView then
          (st, { success := false,
                 error := some ("View '" ++ finalView ++ "' not found"),
                 fix := some "Create it first with add_view() or use an existing view" })
        else
          let st1 := { st with
            skillFolders := st.skillFolders.filter (fun f => f != skillId)
            skillsSchemasJson :=
              some (.ok (schemas.filter (fun q => q.1 != skillId))) }
          let created := create_skill st1 skillId finalName finalDescription
            finalTriggers finalView finalTools finalAuth fsOk
          if created.2.success then
            (created.1, { created.2 with
              message := some ("Updated skill '" ++ skillId ++ "'") })
          else created

/-! ## The Cross-Reference Validator (tools/validation/validate.py)

A Python source file as the validator analyses it: its file name, its raw
text (used by the exec-compatibility checks), and the result of
`ast.parse` — a syntax-error message or the `FunctionDef` nodes found by
`ast.walk`, each with its argument names and whether each argument carries
a type hint. -/

structure PyFuncArg where
  name : String
  annotated : Bool
deriving DecidableEq

structure PyFuncDef where
  name : String
  args : List PyFuncArg
deriving DecidableEq

structure PyFileInfo where
  fileName : String
  content : String
  parsed : Except String (List PyFuncDef)

def pyStartsWith (s pre : String) : Bool :=
  pre.toList.isPrefixOf s.toList

/-- `_validate_tool_signature` (lines 158–190): exactly one argument named
`params` passes; several arguments or one with another name is an error;
no argument at all falls through both checks and passes. -/
def validate_tool_signature (fn : PyFuncDef) (fileName : String) :
    List String :=
  let args := fn.args.filter (fun a => a.name != "self")
  match args with
  | [a] =>
    if a.name == "params" then []
    else
      ["Tool '" ++ fn.name ++ "' in " ++ fileName ++
        " has single param named '" ++ a.name ++
        "'. A4E expects the param to be named 'params'. Fix: Rename to 'params: Dict[str, Any]'"]
  | [] => []
  | _ =>
    ["Tool '" ++ fn.name ++ "' in " ++ fileName ++
      " uses individual parameters. A4E requires params: Dict[str, Any] pattern. " ++
      "Fix: Change signature to 'def " ++ fn.name ++ "(params: Dict[str, Any]) -> Dict[str, Any]'"]

/-- `_check_exec_compatibility` (lines 193–219). -/
def check_exec_compatibility (content fileName : String) : List String :=
  (if !containsSub content "if '__name__' not in" &&
      !containsSub content "if \"__name__\" not in" then
    [fileName ++ " may not work in exec() context. Add a __name__ guard at top"]
  else []) ++
  (if (containsSub content "if __name__ == \"__main__\"" ||
       containsSub content "if __name__ == '__main__'") &&
      !containsSub content "globals().get('__name__')" then
    [fileName ++ " uses a __main__ check which may fail in exec() context. " ++
      "Change to: if globals().get('__name__') == '__main__'"]
  else [])

/-- The support files excluded from the signature check (line 81). -/
def supportFileNames : List String :=
  ["db.py", "models.py", "seed_data.py", "__init__.py"]

/-- The per-function part of check 1 (lines 74–90): skip underscore-prefixed
functions; in a tool file (other than a support file) check the `params`
convention; flag every unannotated argument other than `self`. -/
def checkFuncs (isToolFile : Bool) (fileName : String)
    (funcs : List PyFuncDef) : List String :=
  funcs.foldl
    (fun acc fn =>
      if pyStartsWith fn.name "_" then acc
      else
        let sigErrs :=
          if isToolFile && !supportFileNames.contains fileName then
            validate_tool_signature fn fileName
          else []
        let hintErrs := fn.args.filterMap (fun a =>
          if !a.annotated && a.name != "self" then
            some ("Missing type hint for argument '" ++ a.name ++ "' in " ++
              fileName ++ ":" ++ fn.name)
          else none)
        acc ++ sigErrs ++ hintErrs)
    []

/-- Per-file part of check 1 (lines 65–100): `__init__.py` is skipped; a
syntax error replaces the function checks and skips the
exec-compatibility warnings (the exception aborts the `try` block). -/
def processPyFile (isToolFile : Bool) (f : PyFileInfo) :
    List String × List String :=
  if f.fileName == "__init__.py" then ([], [])
  else
    match f.parsed with
    | .error e => (["Syntax error in " ++ f.fileName ++ ": " ++ e], [])
    | .ok funcs =>
      (checkFuncs isToolFile f.fileName funcs,
       if ["db.py", "models.py", "seed_data.py"].contains f.fileName then
         check_exec_compatibility f.content f.fileName
       else [])

/-- `_check_agent_prompt` (lines 264–293). -/
def check_agent_prompt (content : String) : List String :=
  let pats := ["english only", "respond in english", "language policy",
    "always respond in english"]
  if pats.any (fun pat => containsSub (pyLower content) pat) then []
  else
    ["Agent prompt (prompts/agent.md) doesn't specify language policy. " ++
      "Consider adding a Language Policy section"]

/-- A skill folder on disk: its name and its `SKILL.md` content when that
file exists. -/
structure SkillFolderInfo where
  name : String
  skillMd : Option String
deriving DecidableEq

/-- A `skills/schemas.json` entry as `_validate_skills` reads it: the
`output.view` reference (`none` when `output` or `view` is missing or
null), the `internal_tools` and `intent_triggers` lists (defaulted to
empty by `dict.get`). -/
structure SkillDataJson where
  output_view : Option String
  internal_tools : List String
  intent_triggers : List String
deriving DecidableEq

/-- `existing_tools` (lines 324–335): keys of a dict-shaped
`tools/schemas.json`, else the string `name` fields of the dict elements of
a list-shaped one; empty when the file is missing or unreadable. (The
source collects `t.get("name")` values, including `None` for entries
without one; `None` and non-string values never compare equal to a tool
name, so they are dropped here.) -/
def existingToolsFrom (t : Option (Except String Json)) : List String :=
  match t with
  | some (.ok (.obj fields)) => fields.map Prod.fst
  | some (.ok (.arr xs)) =>
    xs.filterMap (fun x =>
      match x with
      | .obj fs =>
        match fs.lookup "name" with
        | some (.str s) => some s
        | _ => none
      | _ => none)
  | _ => []

/-- `_validate_skills` (lines 296–389). -/
def validate_skills (folders : List SkillFolderInfo)
    (schemasDoc : Option (Except String (List (String × SkillDataJson))))
    (existingTools existingViews : List String) :
    List String × List String :=
  match schemasDoc with
  | none =>
    if !folders.isEmpty then
      (["Skills exist but skills/schemas.json is missing."], [])
    else ([], [])
  | some (.error e) => (["Invalid JSON in skills/schemas.json: " ++ e], [])
  | some (.ok schemas) =>
    let perSkill := schemas.map (fun p =>
      let mdWarns :=
        match (folders.find? (fun f => f.name == p.1)).bind
            SkillFolderInfo.skillMd with
        | none => ["Skill '" ++ p.1 ++ "' missing SKILL.md documentation"]
        | some content =>
          if containsSub content "render_view(" then
            ["Skill '" ++ p.1 ++ "' SKILL.md references non-existent 'render_view()' function. " ++
              "Update to use actual tool names with params dict pattern."]
          else []
      let viewErrs :=
        match p.2.output_view with
        | some v =>
          if v != "" && v != "NONE" && !existingViews.contains v then
            ["Skill '" ++ p.1 ++ "' references non-existent view '" ++ v ++ "'"]
          else []
        | none => []
      let toolWarns := p.2.internal_tools.filterMap (fun t =>
        if !existingTools.contains t then
          some ("Skill '" ++ p.1 ++ "' references tool '" ++ t ++ "' not in schemas")
        else none)
      (viewErrs, mdWarns ++ toolWarns))
    let orphanWarns := folders.filterMap (fun f =>
      if !schemas.any (fun q => q.1 == f.name) then
        some ("Orphan skill folder '" ++ f.name ++ "' not in schemas.json")
      else none)
    let triggerPairs := schemas.flatMap (fun p =>
      p.2.intent_triggers.map (fun t => (pyStrip (pyLower t), p.1)))
    let triggerKeys := triggerPairs.foldl
      (fun ks t => if ks.contains t.1 then ks else ks ++ [t.1]) []
    let dupWarns := triggerKeys.filterMap (fun k =>
      let claimants := triggerPairs.filterMap (fun t =>
        if t.1 == k then some t.2 else none)
      if claimants.length > 1 then
        some ("Duplicate trigger '" ++ k ++ "' in skills: " ++
          String.intercalate ", " claimants)
      else none)
    (perSkill.flatMap Prod.fst,
     perSkill.flatMap Prod.snd ++ orphanWarns ++ dupWarns)

/-- The project snapshot `validate` reads. -/
structure ValidateProject where
  agentPyExists : Bool
  metadataJsonExists : Bool
  agentPromptExists : Bool
  welcomeViewExists : Bool
  agentPy : PyFileInfo
  toolsDirExists : Bool
  toolPyFiles : List PyFileInfo
  toolsSchemasJson : Option (Except String Json)
  viewsDirExists : Bool
  viewDirs : List (String × Bool)
  viewsSchemasJsonExists : Bool
  skillsDirExists : Bool
  skillFolderList : List SkillFolderInfo
  skillsSchemasJson : Option (Except String (List (String × SkillDataJson)))
  agentPromptContent : Option String

structure ValidateResult where
  success : Bool
  error : Option String := none
  message : Option String := none
  details : List String := []
  warnings : List String := []
deriving DecidableEq

/-- Check 1 of the strict section (lines 60–100), per file. -/
def validateCheck1 (p : ValidateProject) : List String × List String :=
  let agentRes := processPyFile false p.agentPy
  let toolResults := (if p.toolsDirExists then p.toolPyFiles else []).map
    (processPyFile true)
  (agentRes.1 ++ toolResults.flatMap Prod.fst,
   agentRes.2 ++ toolResults.flatMap Prod.snd)

/-- Check 2 of the strict section (lines 102–113): tools aggregate
existence and shape. -/
def validateCheck2 (p : ValidateProject) : List String :=
  if p.toolsDirExists then
    match p.toolsSchemasJson with
    | none =>
      if !(p.toolPyFiles.filter (fun f =>
          !supportFileNames.contains f.fileName)).isEmpty then
        ["Tools exist but tools/schemas.json is missing. Run generate_schemas."]
      else []
    | some parsed => validate_tools_schema_format parsed
  else []

/-- The view directories that hold a `view.tsx`. -/
def viewDirsWithTsx (p : ValidateProject) : List String :=
  p.viewDirs.filterMap (fun v => if v.2 then some v.1 else none)

/-- Check 3 of the strict section (lines 115–125): views aggregate
existence. -/
def validateCheck3 (p : ValidateProject) : List String :=
  if p.viewsDirExists && !p.viewsSchemasJsonExists &&
      !(viewDirsWithTsx p).isEmpty then
    ["Views exist but views/schemas.json is missing. Run generate_schemas."]
  else []

/-- Check 4 of the strict section (lines 127–134): the skills integrity
pass, fed with the tools/views registries of the snapshot. -/
def validateCheck4 (p : ValidateProject) : List String × List String :=
  if p.skillsDirExists then
    validate_skills p.skillFolderList p.skillsSchemasJson
      (existingToolsFrom (if p.toolsDirExists then p.toolsSchemasJson else none))
      (if p.viewsDirExists then viewDirsWithTsx p else [])
  else ([], [])

/-- Check 5 of the strict section (lines 136–140): agent-prompt warnings. -/
def validateCheck5 (p : ValidateProject) : List String :=
  match p.agentPromptContent with
  | some content => check_agent_prompt content
  | none => []

/-- The error list the strict section accumulates, in source order. -/
def validateStrictErrors (p : ValidateProject) : List String :=
  (validateCheck1 p).1 ++ validateCheck2 p ++ validateCheck3 p ++
    (validateCheck4 p).1

/-- The warning list the strict section accumulates, in source order. -/
def validateStrictWarnings (p : ValidateProject) : List String :=
  (validateCheck1 p).2 ++ (validateCheck4 p).2 ++ validateCheck5 p

/-- `validate` (lines 21–155). The early return on missing required files
short-circuits every strict check; otherwise the strict checks accumulate
`errors` and `warnings` in source order and any error makes the overall
result `success=false` with the errors in `details`. (The path prefix of
the missing-files message is elided.) -/
def validate (strict : Bool) (p : ValidateProject) : ValidateResult :=
  let missing :=
    (if p.agentPyExists then [] else ["agent.py"]) ++
    (if p.metadataJsonExists then [] else ["metadata.json"]) ++
    (if p.agentPromptExists then [] else ["prompts/agent.md"]) ++
    (if p.welcomeViewExists then [] else ["views/welcome/view.tsx"])
  if !missing.isEmpty then
    { success := false,
      error := some ("Missing required files: " ++ String.intercalate ", " missing) }
  else if !strict then { success := true, message := some "Agent structure is valid" }
  else
    let errors := validateStrictErrors p
    let warnings := validateStrictWarnings p
    if !errors.isEmpty then
      { success := false, error := some "Validation failed",
        details := errors, warnings := warnings }
    else
      { success := true, message := some "Agent structure is valid",
        warnings := warnings }

/-! ## Round-trip support: the rendered annotation as the importing
interpreter resolves it -/

/-- A rendered annotation string resolved to the live type the Python
interpreter produces when the generated tool file is imported: the six
strings `type_mapping` can emit map to their builtin types (bare `List`
carries no item argument), anything else is an opaque annotation. -/
def annotStringToPyType : String → PyType
  | "str" => .pystr
  | "float" => .pyfloat
  | "int" => .pyint
  | "bool" => .pybool
  | "List" => .pylist []
  | "dict" => .pydict
  | s => .other s

/-- The live type of the parameter `add_tool` renders for canonical type `t`
(add_tool.py lines 62–87): the `type_mapping` image (identity fallback),
wrapped as `Optional[…]` — that is, `Union[T, None]` — when not
required. -/
def renderedParamPyType (t : String) (required : Bool) : PyType :=
  let base := annotStringToPyType ((type_mapping.lookup t).getD t)
  if required then base else .pyunion [base, .pynone]

/-- The `required` field of a tool parameter descriptor when explicitly
given (`param_info.get("required", False)` reads it, add_tool.py
line 84). -/
def paramRequiredField : ParamSpec → Option Bool
  | .simple _ => none
  | .detailed _ r _ => r

/-- A concrete generated tool schema used by closed evaluations. -/
def exToolSchema : ToolSchema :=
  { name := "calc"
    description := "Adds two numbers"
    properties := [("a", ⟨"number", some "first operand"⟩)]
    required := ["a"]
    returns := [("status", ⟨"string", none⟩)] }

/-! # Theorems -/

/-- The union branch of `python_type_to_json_type` recurses on the first
non-`None` argument. -/
lemma python_type_to_json_type_union_first (args : List PyType) (b : PyType)
    (rest : List PyType)
    (h : args.filter (fun a => !a.isNone) = b :: rest) :
    python_type_to_json_type (.pyunion args) = python_type_to_json_type b := by
  rw [python_type_to_json_type.eq_1]
  split
  · next h0 => rw [h] at h0; cases h0
  · next a tail h1 =>
    rw [h] at h1
    injection h1 with h2 _
    rw [h2]

/-- `Optional[b]` unwraps to `b` for a non-`None` base. -/
lemma python_type_to_json_type_optional (b : PyType) (hb : b.isNone = false) :
    python_type_to_json_type (.pyunion [b, .pynone]) =
      python_type_to_json_type b := by
  cases b
  case pynone => simp [PyType.isNone] at hb
  all_goals exact python_type_to_json_type_union_first _ _ [] rfl

lemma pttj_pystr : python_type_to_json_type .pystr = .simple "string" := by
  simp [python_type_to_json_type]

lemma pttj_pyfloat : python_type_to_json_type .pyfloat = .simple "number" := by
  simp [python_type_to_json_type]

lemma pttj_pyint : python_type_to_json_type .pyint = .simple "integer" := by
  simp [python_type_to_json_type]

lemma pttj_pybool : python_type_to_json_type .pybool = .simple "boolean" := by
  simp [python_type_to_json_type]

lemma pttj_pydict : python_type_to_json_type .pydict = .simple "object" := by
  simp [python_type_to_json_type]

lemma pttj_pylist_nil :
    python_type_to_json_type (.pylist []) = .arrayOf (.simple "string") := by
  simp [python_type_to_json_type]

/-- C3: the claim says a bundled parameter whose docstring description
carries the `(optional)` marker (any casing) gets `required=false` and a
marker-stripped stored description. On the failing input
`- height: Height in m (optional)` the code strips the marker first and
then computes the required flag from the stripped description, so the
parameter lands in the required list — `required=true`. -/
theorem C3_optional_marker_param_marked_required :
    extract_param_descriptions [("height", "Height in m (optional)")] [] =
      [("height", "Height in m")] ∧
    bundledParamRequired "Height in m" = true ∧
    (bundledProperties (extract_param_descriptions
        [("height", "Height in m (optional)")] [])).2 = ["height"] := by
  refine ⟨by decide, by decide, by decide⟩

/-- C4, counterexample: the Returns-section heuristic is not the Args
heuristic. On the description `"integer count"` the Args heuristic yields
`integer` while the Returns heuristic (no integer case, extra `count`
keyword) yields `number`. -/
theorem C4_returns_heuristic_differs_counterexample :
    bundledParamType "integer count" = "integer" ∧
    returnPropType "integer count" = "number" := by
  refine ⟨by decide, by decide⟩

/-- C4, amended: the Returns heuristic agrees with the Args heuristic on
descriptions containing neither `"integer"` nor `"count"`; and with no
Returns section the returns properties are exactly the
`{status: string, message: string}` stub. -/
theorem C4_returns_default_and_restricted_heuristic :
    (∀ d, containsSub (pyLower d) "integer" = false →
      containsSub (pyLower d) "count" = false →
      returnPropType d = bundledParamType d) ∧
    returnsProperties (extract_return_properties none) =
      [("status", ⟨"string", none⟩), ("message", ⟨"string", none⟩)] := by
  constructor
  · intro d h1 h2
    simp [returnPropType, bundledParamType, h1, h2]
  · rfl

/-- C4 amended, witness at `d = "Weight in kg"`. -/
theorem C4_returns_default_and_restricted_heuristic_witness :
    returnPropType "Weight in kg" = bundledParamType "Weight in kg" :=
  C4_returns_default_and_restricted_heuristic.1 "Weight in kg"
    (by decide) (by decide)

/-- C5: for each of the six canonical types and either required flag, the
annotation `add_tool` renders maps back through
`python_type_to_json_type` to the original canonical type. -/
theorem C5_canonical_type_roundtrip (t : String) (required : Bool)
    (h : t ∈ ["string", "number", "integer", "boolean", "array", "object"]) :
    (python_type_to_json_type (renderedParamPyType t required)).typeName = t := by
  fin_cases h <;> cases required
  · rw [show renderedParamPyType "string" false =
        PyType.pyunion [.pystr, .pynone] from rfl,
      python_type_to_json_type_optional PyType.pystr rfl, pttj_pystr]
    rfl
  · rw [show renderedParamPyType "string" true = PyType.pystr from rfl,
      pttj_pystr]
    rfl
  · rw [show renderedParamPyType "number" false =
        PyType.pyunion [.pyfloat, .pynone] from rfl,
      python_type_to_json_type_optional PyType.pyfloat rfl, pttj_pyfloat]
    rfl
  · rw [show renderedParamPyType "number" true = PyType.pyfloat from rfl,
      pttj_pyfloat]
    rfl
  · rw [show renderedParamPyType "integer" false =
        PyType.pyunion [.pyint, .pynone] from rfl,
      python_type_to_json_type_optional PyType.pyint rfl, pttj_pyint]
    rfl
  · rw [show renderedParamPyType "integer" true = PyType.pyint from rfl,
      pttj_pyint]
    rfl
  · rw [show renderedParamPyType "boolean" false =
        PyType.pyunion [.pybool, .pynone] from rfl,
      python_type_to_json_type_optional PyType.pybool rfl, pttj_pybool]
    rfl
  · rw [show renderedParamPyType "boolean" true = PyType.pybool from rfl,
      pttj_pybool]
    rfl
  · rw [show renderedParamPyType "array" false =
        PyType.pyunion [.pylist [], .pynone] from rfl,
      python_type_to_json_type_optional (PyType.pylist []) rfl, pttj_pylist_nil]
    rfl
  · rw [show renderedParamPyType "array" true = PyType.pylist [] from rfl,
      pttj_pylist_nil]
    rfl
  · rw [show renderedParamPyType "object" false =
        PyType.pyunion [.pydict, .pynone] from rfl,
      python_type_to_json_type_optional PyType.pydict rfl, pttj_pydict]
    rfl
  · rw [show renderedParamPyType "object" true = PyType.pydict from rfl,
      pttj_pydict]
    rfl

/-- C5, witness at `t = "number"`, `required = false`. -/
theorem C5_canonical_type_roundtrip_witness :
    (python_type_to_json_type (renderedParamPyType "number" false)).typeName =
      "number" :=
  C5_canonical_type_roundtrip "number" false (by decide)

lemma paramLe_trans (a b c : String × MappedParam)
    (hab : paramLe a b = true) (hbc : paramLe b c = true) :
    paramLe a c = true := by
  simp only [paramLe, decide_eq_true_eq] at *
  rcases hab with h1 | ⟨h1, h1'⟩ <;> rcases hbc with h2 | ⟨h2, h2'⟩
  · exact Or.inl (h1.trans h2)
  · exact Or.inl (h2 ▸ h1)
  · exact Or.inl (h1 ▸ h2)
  · exact Or.inr ⟨h1.trans h2, le_trans h1' h2'⟩

lemma paramLe_total (a b : String × MappedParam) :
    (paramLe a b || paramLe b a) = true := by
  simp only [paramLe, Bool.or_eq_true, decide_eq_true_eq]
  rcases lt_trichotomy (paramSortKey a) (paramSortKey b) with h | h | h
  · exact Or.inl (Or.inl h)
  · rcases le_total a.1 b.1 with h' | h'
    · exact Or.inl (Or.inr ⟨h, h'⟩)
    · exact Or.inr (Or.inr ⟨h.symm, h'⟩)
  · exact Or.inr (Or.inl h)

lemma sortToolParams_pairwise (l : List (String × MappedParam)) :
    (sortToolParams l).Pairwise (fun a b => paramLe a b = true) :=
  List.sorted_mergeSort paramLe_trans paramLe_total l

/-- Orderedness in the `paramLe` order forbids an optional entry before a
required one. -/
lemma paramLe_no_optional_before_required (a b : String × MappedParam)
    (hle : paramLe a b = true) (hb : b.2.is_required = true) :
    a.2.is_required = true := by
  by_contra ha
  simp only [paramLe, decide_eq_true_eq, paramSortKey, hb, if_true] at hle
  rw [if_neg ha] at hle
  rcases hle with h | ⟨h, -⟩ <;> omega

/-- C6: the parameter order `add_tool` and `update_tool` render into the
generated declaration never places an optional (defaulted) parameter
before a required one: whenever an entry is required, every entry before
it is required too. -/
theorem C6_no_optional_before_required (params : List (String × ParamSpec)) :
    (add_tool_rendered_params params).Pairwise
      (fun a b => b.2.is_required = true → a.2.is_required = true) ∧
    (update_tool_rendered_params params).Pairwise
      (fun a b => b.2.is_required = true → a.2.is_required = true) := by
  constructor <;>
    exact (sortToolParams_pairwise _).imp
      (fun h hb => paramLe_no_optional_before_required _ _ h hb)

/-- C1: a regeneration run that processes tools writes `json.dumps(tool_schemas)`
where `tool_schemas` is the collected list — the persisted aggregate is a
JSON array, not a map keyed by tool name, and the validator's
aggregate-shape check rejects exactly that document. -/
theorem C1_generator_writes_list_validator_rejects :
    (generate_schemas true
      { toolsDirExists := true
        toolFiles := [("calc", .ok exToolSchema)]
        toolsSchemasJson := none
        viewsDirExists := false
        viewDirs := []
        viewsSchemasJson := none }).1.toolsSchemasJson =
      some (Json.arr [toolSchemaJson exToolSchema]) ∧
    validate_tools_schema_format (.ok (Json.arr [toolSchemaJson exToolSchema])) =
      ["tools/schemas.json is in array format but A4E expects dictionary format. " ++
        "Run 'generate_schemas(force=True)' to regenerate in correct format."] := by
  exact ⟨rfl, rfl⟩

/-- C2, counterexample: starting from a state whose tools aggregate already
exists (here the empty map) and holds no entry for `calc`, `add_tool`
succeeds but the aggregate afterwards is unchanged — the new tool's schema
is not present in it. -/
theorem C2_add_tool_schema_absent_from_existing_aggregate :
    (add_tool
      { toolsDirExists := true, toolFiles := [],
        toolsSchemasJson := some (Json.obj []),
        viewsDirExists := false, viewDirs := [], viewsSchemasJson := none }
      "calc" (.ok exToolSchema)).2.success = true ∧
    (add_tool
      { toolsDirExists := true, toolFiles := [],
        toolsSchemasJson := some (Json.obj []),
        viewsDirExists := false, viewDirs := [], viewsSchemasJson := none }
      "calc" (.ok exToolSchema)).1.toolsSchemasJson = some (Json.obj []) := by
  exact ⟨rfl, rfl⟩

/-- C2, amended: when the tools aggregate document already exists, the
`regenerate(force=false)` call inside `add_tool` skips tool-schema
generation, so after any add — successful or not — the aggregate document
is exactly what it was; the new tool's schema is merged only when no
aggregate existed yet (or on a forced regeneration). -/
theorem C2_add_tool_leaves_existing_aggregate_unchanged
    (st : GenProject) (d : Json) (toolName : String)
    (rendered : Except String ToolSchema)
    (h : st.toolsSchemasJson = some d) :
    (add_tool st toolName rendered).1.toolsSchemasJson = some d := by
  unfold add_tool
  split
  · exact h
  · split
    · exact h
    · split
      · exact h
      · simp only [generate_schemas, h, Option.isSome_some, Bool.not_true,
          Bool.and_false, Bool.false_or, Bool.or_false, Bool.false_eq_true,
          if_false]

/-- C2 amended, witness: a concrete state with an existing (empty-map)
aggregate. -/
theorem C2_add_tool_leaves_existing_aggregate_unchanged_witness :
    (add_tool
      { toolsDirExists := true, toolFiles := [],
        toolsSchemasJson := some (Json.obj []),
        viewsDirExists := false, viewDirs := [], viewsSchemasJson := none }
      "calc2" (.ok exToolSchema)).1.toolsSchemasJson = some (Json.obj []) :=
  C2_add_tool_leaves_existing_aggregate_unchanged _ _ _ _ rfl

/-- C7: removing the sentinel view id `welcome` — and likewise the sentinel
skill id `show_welcome` — fails with an error and leaves the whole state
(folders on disk and the aggregate document) untouched, from any starting
state: every branch reachable with the sentinel id returns before any
mutation. -/
theorem C7_sentinel_removal_rejected_without_mutation
    (v : ViewsFsState) (s : SkillsFsState) :
    (remove_view v "welcome").1 = v ∧
    (remove_view v "welcome").2.success = false ∧
    (remove_view v "welcome").2.error.isSome = true ∧
    (remove_skill s "show_welcome").1 = s ∧
    (remove_skill s "show_welcome").2.success = false ∧
    (remove_skill s "show_welcome").2.error.isSome = true := by
  unfold remove_view remove_skill
  refine ⟨?_, ?_, ?_, ?_, ?_, ?_⟩ <;> split_ifs <;> simp_all


/-- The required list only grows through the `create_view` prop loop. -/
lemma createViewPropStep_required_mono
    (props : List (String × ViewPropSpec))
    (acc : List (String × PropSchema) × List String)
    (nm : String) (h : nm ∈ acc.2) :
    nm ∈ (props.foldl createViewPropStep acc).2 := by
  induction props generalizing acc with
  | nil => exact h
  | cons p rest ih =>
    refine ih _ ?_
    rcases p with ⟨pn, spec⟩
    cases spec with
    | detailed ty desc req =>
      simp only [createViewPropStep]
      by_cases hreq : req.getD true = true
      · simp only [hreq, if_true]
        exact List.mem_append.mpr (Or.inl h)
      · simp only [hreq, if_false]
        exact h
    | simple ty =>
      simp only [createViewPropStep]
      exact List.mem_append.mpr (Or.inl h)

/-- A detailed prop without `required: False` lands in the required list,
from any accumulator. -/
lemma createView_mem_required_aux
    (props : List (String × ViewPropSpec))
    (acc : List (String × PropSchema) × List String)
    (nm : String) (ty desc : Option String) (req : Option Bool)
    (hmem : (nm, ViewPropSpec.detailed ty desc req) ∈ props)
    (hreq : req ≠ some false) :
    nm ∈ (props.foldl createViewPropStep acc).2 := by
  induction props generalizing acc with
  | nil => cases hmem
  | cons p rest ih =>
    rcases List.mem_cons.mp hmem with heq | hrest
    · subst heq
      simp only [List.foldl_cons]
      apply createViewPropStep_required_mono
      have hgd : req.getD true = true := by
        cases req with
        | none => rfl
        | some b =>
          cases b with
          | false => exact absurd rfl hreq
          | true => rfl
      simp only [createViewPropStep, hgd, if_true]
      exact List.mem_append.mpr (Or.inr (List.mem_singleton.mpr rfl))
    · simp only [List.foldl_cons]
      exact ih _ hrest

/-- C10: the default of an omitted `required` flag differs by artifact kind.
In the tool parameter mapping shared by `add_tool` and `update_tool`, a
descriptor without an explicit `required: True` is optional — rendered as
`Optional[T] = None` with `is_required=false`. In `create_view`, a
detailed prop descriptor without an explicit `required: False` is added
to the schema's required list. -/
theorem C10_required_default_differs_by_kind :
    (∀ info : ParamSpec, paramRequiredField info ≠ some true →
      (mapToolParam info).is_required = false ∧
      ∃ base, (mapToolParam info).pyType = "Optional[" ++ base ++ "] = None") ∧
    (∀ (props : List (String × ViewPropSpec)) (nm : String)
        (ty desc : Option String) (req : Option Bool),
      (nm, ViewPropSpec.detailed ty desc req) ∈ props →
      req ≠ some false →
      nm ∈ (createViewSchemaProps props).2) := by
  constructor
  · intro info hreq
    cases info with
    | simple t =>
      exact ⟨rfl, (type_mapping.lookup t).getD t, rfl⟩
    | detailed ty r d =>
      have hr : r.getD false = false := by
        cases r with
        | none => rfl
        | some b =>
          cases b with
          | true => exact absurd rfl hreq
          | false => rfl
      constructor
      · simp only [mapToolParam, hr, Bool.false_eq_true, if_false]
      · refine ⟨(type_mapping.lookup (ty.getD "Any")).getD (ty.getD "Any"), ?_⟩
        simp only [mapToolParam, hr, Bool.false_eq_true, if_false]
  · intro props nm ty desc req hmem hreq
    exact createView_mem_required_aux props ([], []) nm ty desc req hmem hreq

/-- C10, witness: a descriptor with no `required` key is optional for a tool
parameter and required for a view prop. -/
theorem C10_required_default_differs_by_kind_witness :
    ((mapToolParam (.detailed (some "string") none none)).is_required = false ∧
      ∃ base, (mapToolParam (.detailed (some "string") none none)).pyType =
        "Optional[" ++ base ++ "] = None") ∧
    "title" ∈ (createViewSchemaProps
      [("title", .detailed (some "string") none none)]).2 :=
  ⟨C10_required_default_differs_by_kind.1 (.detailed (some "string") none none)
      (by decide),
   C10_required_default_differs_by_kind.2
      [("title", .detailed (some "string") none none)] "title"
      (some "string") none none (List.mem_singleton.mpr rfl) (by decide)⟩

lemma lookup_filter_ne {α : Type} (l : List (String × α)) (x : String) :
    (l.filter (fun q => q.1 != x)).lookup x = none := by
  induction l with
  | nil => rfl
  | cons a t ih =>
    rcases a with ⟨k, v⟩
    by_cases h : k = x
    · subst h
      simpa [List.filter_cons, bne_self_eq_false] using ih
    · have h1 : (k != x) = true := by simp [bne_iff_ne, h]
      have h2 : (x == k) = false := by
        simp only [beq_eq_false_iff_ne, ne_eq]
        exact fun he => h he.symm
      simp [List.filter_cons, h1, List.lookup, h2, ih]

/-- C9: skill update is not atomic on failure. With the guards passed
(directory present, parsable aggregate containing the skill, an update
requested, view check trivial via `output_view = "NONE"`), `update_skill`
first deletes the skill directory and rewrites the aggregate without the
entry; when the re-creation step then fails, the result is
`success=false` while the original directory and aggregate entry are
already gone. -/
theorem C9_update_skill_not_atomic_on_create_failure
    (st : SkillsProject) (skillId : String)
    (schemas : List (String × SkillEntryJson))
    (hdir : st.skillsDirExists = true)
    (hdoc : st.skillsSchemasJson = some (.ok schemas))
    (hmem : schemas.any (fun q => q.1 == skillId) = true) :
    (update_skill st skillId none none none (some "NONE") none none
        false).2.success = false ∧
    skillId ∉ (update_skill st skillId none none none (some "NONE") none none
        false).1.skillFolders ∧
    (update_skill st skillId none none none (some "NONE") none none
        false).1.skillsSchemasJson =
      some (.ok (schemas.filter (fun q => q.1 != skillId))) ∧
    (schemas.filter (fun q => q.1 != skillId)).lookup skillId = none := by
  have hres : update_skill st skillId none none none (some "NONE") none none
      false =
      ({ st with
          skillFolders := st.skillFolders.filter (fun f => f != skillId)
          skillsSchemasJson :=
            some (.ok (schemas.filter (fun q => q.1 != skillId))) },
       { success := false,
         error := some "filesystem error during skill creation" }) := by
    simp only [update_skill, hdir, hdoc, hmem, Bool.not_true,
      Bool.false_eq_true, if_false, Option.isNone_some, Bool.false_and,
      Bool.and_false, Option.getD_some, create_skill]
    simp [List.mem_filter]
  rw [hres]
  refine ⟨rfl, ?_, rfl, lookup_filter_ne schemas skillId⟩
  simp [List.mem_filter]

/-- C9, witness: a concrete one-skill project whose re-creation step fails. -/
theorem C9_update_skill_not_atomic_on_create_failure_witness :
    (update_skill
        { skillsDirExists := true, skillFolders := ["show_data"],
          skillsSchemasJson := some (.ok [("show_data",
            ⟨some "Show Data", some "Shows data", some ["show data"],
              some (some "NONE"), some [], some false⟩)]),
          viewFolders := ["welcome"] }
        "show_data" none none none (some "NONE") none none
        false).2.success = false ∧
    "show_data" ∉ (update_skill
        { skillsDirExists := true, skillFolders := ["show_data"],
          skillsSchemasJson := some (.ok [("show_data",
            ⟨some "Show Data", some "Shows data", some ["show data"],
              some (some "NONE"), some [], some false⟩)]),
          viewFolders := ["welcome"] }
        "show_data" none none none (some "NONE") none none
        false).1.skillFolders := by
  have h := C9_update_skill_not_atomic_on_create_failure
    { skillsDirExists := true, skillFolders := ["show_data"],
      skillsSchemasJson := some (.ok [("show_data",
        ⟨some "Show Data", some "Shows data", some ["show data"],
          some (some "NONE"), some [], some false⟩)]),
      viewFolders := ["welcome"] }
    "show_data"
    [("show_data",
      ⟨some "Show Data", some "Shows data", some ["show data"],
        some (some "NONE"), some [], some false⟩)]
    rfl rfl (by decide)
  exact ⟨h.1, h.2.1⟩

/-- A contiguous segment of a character list is found by `containsSeq`. -/
lemma containsSeq_append (pre needle post : List Char) :
    containsSeq needle (pre ++ (needle ++ post)) = true := by
  induction pre with
  | nil =>
    simp only [List.nil_append]
    cases hn : needle ++ post with
    | nil =>
      have : needle = [] := by
        cases needle with
        | nil => rfl
        | cons c t => simp at hn
      rw [this]
      rfl
    | cons c rest =>
      rw [containsSeq, ← hn]
      have : needle.isPrefixOf (needle ++ post) = true :=
        List.isPrefixOf_iff_prefix.mpr (List.prefix_append _ _)
      rw [this, Bool.true_or]
  | cons c pre ih =>
    rw [List.cons_append, containsSeq, ih, Bool.or_true]

/-- A string built as `pre ++ mid ++ post` contains `mid`. -/
lemma containsSub_of_eq_append (s pre mid post : String)
    (h : s = pre ++ mid ++ post) :
    containsSub s mid = true := by
  subst h
  unfold containsSub
  have : (pre ++ mid ++ post).toList =
      pre.toList ++ (mid.toList ++ post.toList) := by
    simp [String.toList, String.data_append]
  rw [this]
  exact containsSeq_append _ _ _

/-- A skill entry whose `output.view` names a missing view contributes its
error string to the skills error list. -/
lemma validate_skills_dangling_view
    (folders : List SkillFolderInfo)
    (schemas : List (String × SkillDataJson))
    (tools views : List String)
    (skillId viewRef : String) (entry : SkillDataJson)
    (hmem : (skillId, entry) ∈ schemas)
    (hview : entry.output_view = some viewRef)
    (hne : (viewRef != "") = true) (hnn : (viewRef != "NONE") = true)
    (hmiss : views.contains viewRef = false) :
    ("Skill '" ++ skillId ++ "' references non-existent view '" ++ viewRef ++ "'")
      ∈ (validate_skills folders (some (.ok schemas)) tools views).1 := by
  simp only [validate_skills]
  rw [List.mem_flatMap]
  refine ⟨_, List.mem_map_of_mem _ hmem, ?_⟩
  simp only [hview, hne, hnn, hmiss, Bool.not_false, Bool.and_true,
    Bool.true_and, Bool.and_self, if_true, List.mem_singleton]

/-- C8: with the required top-level files present, strict validation of a
project whose skills registry holds a skill referencing a view id that is
neither `"NONE"` nor an existing view fails, and its `details` list holds
an error string carrying both the view id and the skill id. -/
theorem C8_missing_view_reference_fails_validation
    (p : ValidateProject)
    (schemas : List (String × SkillDataJson))
    (skillId viewRef : String) (entry : SkillDataJson)
    (h1 : p.agentPyExists = true) (h2 : p.metadataJsonExists = true)
    (h3 : p.agentPromptExists = true) (h4 : p.welcomeViewExists = true)
    (h5 : p.skillsDirExists = true)
    (h6 : p.skillsSchemasJson = some (.ok schemas))
    (hmem : (skillId, entry) ∈ schemas)
    (hview : entry.output_view = some viewRef)
    (hne : (viewRef != "") = true) (hnn : (viewRef != "NONE") = true)
    (hmiss : (if p.viewsDirExists then viewDirsWithTsx p else []).contains
      viewRef = false) :
    (validate true p).success = false ∧
    ("Skill '" ++ skillId ++ "' references non-existent view '" ++ viewRef ++ "'")
      ∈ (validate true p).details ∧
    containsSub
      ("Skill '" ++ skillId ++ "' references non-existent view '" ++ viewRef ++ "'")
      viewRef = true ∧
    containsSub
      ("Skill '" ++ skillId ++ "' references non-existent view '" ++ viewRef ++ "'")
      skillId = true := by
  have herr :
      ("Skill '" ++ skillId ++ "' references non-existent view '" ++ viewRef ++ "'")
        ∈ validateStrictErrors p := by
    unfold validateStrictErrors
    refine List.mem_append.mpr (Or.inr ?_)
    unfold validateCheck4
    rw [h5, if_pos rfl, h6]
    exact validate_skills_dangling_view _ _ _ _ _ _ _ hmem hview hne hnn hmiss
  have hnonempty : validateStrictErrors p ≠ [] := by
    intro hnil
    rw [hnil] at herr
    cases herr
  have hresult :
      validate true p =
        { success := false, error := some "Validation failed",
          details := validateStrictErrors p,
          warnings := validateStrictWarnings p } := by
    unfold validate
    rw [h1, h2, h3, h4]
    simp only [if_true, List.append_nil, List.nil_append, List.isEmpty_nil,
      Bool.not_false, Bool.not_true, Bool.false_eq_true, if_false, if_true]
    rw [if_pos]
    cases hL : (validateStrictErrors p).isEmpty
    · simp
    · exact absurd (List.isEmpty_iff.mp hL) hnonempty
  rw [hresult]
  refine ⟨rfl, herr, ?_, ?_⟩
  · exact containsSub_of_eq_append _
      ("Skill '" ++ skillId ++ "' references non-existent view '") viewRef "'"
      rfl
  · exact containsSub_of_eq_append _ "Skill '" skillId
      ("' references non-existent view '" ++ viewRef ++ "'")
      (by simp [String.append_assoc])

/-- A concrete project snapshot for closed evaluation of `validate`: all
required files present, one skill `show_results` whose `output.view`
names the missing view `results`. -/
def c8Project : ValidateProject :=
  { agentPyExists := true, metadataJsonExists := true,
    agentPromptExists := true, welcomeViewExists := true,
    agentPy := ⟨"agent.py", "", .ok []⟩,
    toolsDirExists := false, toolPyFiles := [], toolsSchemasJson := none,
    viewsDirExists := true, viewDirs := [("welcome", true)],
    viewsSchemasJsonExists := true,
    skillsDirExists := true,
    skillFolderList := [⟨"show_results", some "documented"⟩],
    skillsSchemasJson := some (.ok [("show_results", ⟨some "results", [], []⟩)]),
    agentPromptContent := none }

/-- C8, witness at `c8Project`. -/
theorem C8_missing_view_reference_fails_validation_witness :
    (validate true c8Project).success = false ∧
    ("Skill '" ++ "show_results" ++ "' references non-existent view '" ++
      "results" ++ "'") ∈ (validate true c8Project).details := by
  have h := C8_missing_view_reference_fails_validation c8Project
    [("show_results", ⟨some "results", [], []⟩)] "show_results" "results"
    ⟨some "results", [], []⟩ rfl rfl rfl rfl rfl rfl
    (List.mem_singleton.mpr rfl) rfl (by decide) (by decide) (by decide)
  exact ⟨h.1, h.2.1⟩
